import Mathlib

/-!
Verification of the $BRATS staking / presale contract
(`src/brats_contract_v3.rs` with the older fragment `src/brats_contract_v2.rs`).

Shallow embedding conventions:
* `u64` values are `Nat` together with the explicit bound `2^64`; Rust's
  `checked_add / checked_sub / checked_mul / checked_div` become
  `Option Nat` valued functions.
* `i64` timestamps are `Int` (`Clock::get()?.unix_timestamp`).
* `Pubkey` is a `String` (base58 text of the key); `Pubkey::default()` is
  the empty string.
* Each instruction handler becomes a pure function from its inputs (account
  state, clock, arguments) to `Res α`:
  `Res.ok` is `Ok(())` together with the new account state and the amounts
  handed to the token program; `Res.fail e` is an early return through
  `require!(_, e)`; `Res.panic` is a panic through `.unwrap()` on a failed
  checked operation.  On Solana both `fail` and `panic` abort the whole
  transaction, so in either case no state change is committed.
-/

/-- 2^64, the number of values of a Rust `u64`. -/
def U64_MOD : Nat := 2 ^ 64

/-- Rust `u64::checked_add`. -/
def checked_add (a b : Nat) : Option Nat :=
  if a + b < U64_MOD then some (a + b) else none

/-- Rust `u64::checked_sub`. -/
def checked_sub (a b : Nat) : Option Nat :=
  if b ≤ a then some (a - b) else none

/-- Rust `u64::checked_mul`. -/
def checked_mul (a b : Nat) : Option Nat :=
  if a * b < U64_MOD then some (a * b) else none

/-- Rust `u64::checked_div`. -/
def checked_div (a b : Nat) : Option Nat :=
  if b = 0 then none else some (a / b)

/-- Wrapping `u64` multiplication: what a plain `*` does in a release build. -/
def wrapping_mul (a b : Nat) : Nat := (a * b) % U64_MOD

/-- `ErrorCode` enum of `brats_contract_v3.rs`. -/
inductive ErrorCode where
  | PresaleNotEnded
  | PresaleAlreadyEnded
  | UnstakingNotAllowedBefore7Days
  | LiquidityLockError
  | InvalidAmount
  | InsufficientFunds
  | NoRewardsAvailable
  | InvalidTokenMint
  | InsufficientRewards
  | Unauthorized
  | InvalidFeeWallet
  | StakingClosed
  | StakingRewardsExhausted
  | WithdrawalNotAllowedAfterPresale
  | InvalidStageIndex
deriving DecidableEq, Repr

/-- Outcome of one instruction: success, a `require!` error, or a panic
(`.unwrap()` on `None`).  `fail` and `panic` both abort the transaction. -/
inductive Res (α : Type) where
  | ok : α → Res α
  | fail : ErrorCode → Res α
  | panic : Res α
deriving DecidableEq, Repr

/-- `STAKING_DURATION: i64 = 180 * 24 * 3600` (seconds). -/
def STAKING_DURATION : Int := 180 * 24 * 3600

/-- `EARLY_UNSTAKE_PERIOD: i64 = 7 * 24 * 3600` (seconds). -/
def EARLY_UNSTAKE_PERIOD : Int := 7 * 24 * 3600

/-- `LIQUIDITY_LOCK_PERIOD: i64 = 365 * 24 * 3600` (seconds). -/
def LIQUIDITY_LOCK_PERIOD : Int := 365 * 24 * 3600

/-- `EARLY_UNSTAKE_PENALTY_PERCENT: u64 = 20`. -/
def EARLY_UNSTAKE_PENALTY_PERCENT : Nat := 20

/-- `CUSTOM_TOKEN_MINT` constant (base58 text). -/
def CUSTOM_TOKEN_MINT : String := "57EMXJXJkGYNCGjr9ngZPKnJr9jdJPZ1SRrWQqcxg9tr"

/-- `FEE_WALLET` constant (base58 text). -/
def FEE_WALLET : String := "57EMXJXJkGYNCGjr9ngZPKnJr9jdJPZ1SRr9jdJPZ1SRr9tr"

/-- `Pubkey::default()`. -/
def PUBKEY_DEFAULT : String := ""

/-- `MAX_BASE58_LEN = 44`: the longest base58 text of a 32-byte `Pubkey`. -/
def MAX_BASE58_LEN : Nat := 44

/-- Solana's `Pubkey::from_str`: it rejects any string longer than
`MAX_BASE58_LEN` with `WrongSize` before decoding, and then requires the
base58 decode to yield exactly 32 bytes.  The two strings this program
parses are decided by the length guard alone: the 48-character `FEE_WALLET`
fails it (it would also decode to 35 bytes, not 32), while the 44-character
`CUSTOM_TOKEN_MINT` passes and decodes to a valid 32-byte key — so for a
string that passes the guard the model returns the text itself. -/
def pubkey_from_str (s : String) : Option String :=
  if s.length > MAX_BASE58_LEN then none else some s

/-- `PresaleState` account. -/
structure PresaleState where
  is_presale_active : Bool
  presale_end_time : Option Int
  launch_time : Option Int
  admin : String
  liquidity_locked : Bool
  liquidity_lock_end_time : Option Int
deriving DecidableEq, Repr

/-- `GlobalState` account. -/
structure GlobalState where
  total_staked : Nat
  reward_pool : Nat
  apy : Nat
  transaction_fee_percent : Nat
deriving DecidableEq, Repr

/-- `StakeInfo` account (one per depositor). -/
structure StakeInfo where
  amount : Nat
  start_time : Int
  last_claim_time : Int
deriving DecidableEq, Repr

/-- One entry of the presale stage table. -/
structure PresaleStage where
  stage : Nat
  price : Nat
  tokens_sold : Nat
  total_raised : Nat
deriving DecidableEq, Repr

/-- `initialize_token`: creates the `PresaleState`.  Line 89 parses the
hard-coded devnet wallet string with `Pubkey::from_str(...).unwrap()`
before writing the state; the 48-character string exceeds the 44-character
pubkey maximum, so the parse fails and the `unwrap` panics — on every call,
whoever `caller` (the payer/signer) is. -/
def init_token (_caller : String) : Res PresaleState :=
  match pubkey_from_str "57EMXJXJkGYNCGjr9ngZPKnJr9jdJPZ1SRr9jdJPZ1SRr9tr" with
  | none => .panic
  | some admin_key =>
    .ok { is_presale_active := true
          presale_end_time := none
          launch_time := none
          admin := admin_key
          liquidity_locked := false
          liquidity_lock_end_time := none }

/-- `initialize_global_state apy transaction_fee_percent`. -/
def init_global_state (apy transaction_fee_percent : Nat) : GlobalState :=
  { total_staked := 0
    reward_pool := 0
    apy := apy
    transaction_fee_percent := transaction_fee_percent }

/-- `stake_tokens`.  On success returns the updated `GlobalState` and
`StakeInfo`; the token program then moves `amount` from the user to the
staking pool. -/
def stake_tokens (ps : PresaleState) (gs : GlobalState) (si : StakeInfo)
    (now : Int) (amount : Nat) : Res (GlobalState × StakeInfo) :=
  if ¬ ps.is_presale_active then .fail .StakingClosed
  else if ¬ (gs.reward_pool > 0) then .fail .StakingRewardsExhausted
  else if ¬ (amount > 0) then .fail .InvalidAmount
  else
    match checked_add si.amount amount with
    | none => .panic
    | some newAmount =>
      match checked_add gs.total_staked amount with
      | none => .panic
      | some newTotal =>
        .ok ({ gs with total_staked := newTotal },
             { amount := newAmount, start_time := now, last_claim_time := now })

/-- The part of `unstake_tokens` after the 7-day launch gate:
`staking_duration = now - start_time` decides full-term versus early
(penalized) settlement. -/
def unstake_settle (gs : GlobalState) (si : StakeInfo) (now : Int) :
    Res (GlobalState × StakeInfo × Nat × Nat) :=
  if ¬ (si.amount > 0) then .fail .InvalidAmount
  else if now - si.start_time ≥ STAKING_DURATION then
    match checked_sub gs.total_staked si.amount with
    | none => .panic
    | some newTotal =>
      .ok ({ gs with total_staked := newTotal }, { si with amount := 0 }, si.amount, 0)
  else
    match checked_mul si.amount EARLY_UNSTAKE_PENALTY_PERCENT with
    | none => .panic
    | some m =>
      match checked_div m 100 with
      | none => .panic
      | some penalty_amount =>
        match checked_sub si.amount penalty_amount with
        | none => .panic
        | some unstake_amount =>
          match checked_sub gs.total_staked si.amount with
          | none => .panic
          | some newTotal =>
            .ok ({ gs with total_staked := newTotal }, { si with amount := 0 },
                 unstake_amount, penalty_amount)

/-- `unstake_tokens`.  On success returns the updated `GlobalState` and
`StakeInfo`, the amount transferred back to the user, and the amount burned
as an early-unstake penalty. -/
def unstake_tokens (ps : PresaleState) (gs : GlobalState) (si : StakeInfo)
    (now : Int) : Res (GlobalState × StakeInfo × Nat × Nat) :=
  match ps.launch_time with
  | some launch_time =>
    if now < launch_time + EARLY_UNSTAKE_PERIOD then .fail .UnstakingNotAllowedBefore7Days
    else unstake_settle gs si now
  | none => unstake_settle gs si now

/-- The checked reward expression shared by `claim_rewards` and
`calculate_rewards`:
`amount.checked_mul(apy)?.checked_mul(staking_time as u64)?
       .checked_div(100 * STAKING_DURATION as u64)?`. -/
def computed_reward (gs : GlobalState) (si : StakeInfo) (now : Int) : Option Nat :=
  match checked_mul si.amount gs.apy with
  | none => none
  | some m1 =>
    match checked_mul m1 (now - si.last_claim_time).toNat with
    | none => none
    | some m2 => checked_div m2 (100 * STAKING_DURATION.toNat)

/-- `claim_rewards`.  `reward_pool_balance` is the token balance of the
reward pool account checked by the `require!`. On success returns the updated
`GlobalState`, `StakeInfo`, and the amount transferred to the user. -/
def claim_rewards (gs : GlobalState) (si : StakeInfo)
    (reward_pool_balance : Nat) (now : Int) : Res (GlobalState × StakeInfo × Nat) :=
  if ¬ (now - si.last_claim_time > 0) then .fail .NoRewardsAvailable
  else
    match computed_reward gs si now with
    | none => .panic
    | some reward_amount =>
      if ¬ (reward_pool_balance ≥ reward_amount) then .fail .InsufficientRewards
      else
        match checked_sub gs.reward_pool reward_amount with
        | none => .panic
        | some newPool =>
          .ok ({ gs with reward_pool := newPool },
               { si with last_claim_time := now }, reward_amount)

/-- `calculate_rewards`: the read-only reward computation. -/
def calculate_rewards (gs : GlobalState) (si : StakeInfo) (now : Int) : Res Nat :=
  if ¬ (now - si.last_claim_time > 0) then .fail .NoRewardsAvailable
  else
    match computed_reward gs si now with
    | none => .panic
    | some reward_amount => .ok reward_amount

/-- `accept_payment`.  Inputs: the keys of the supplied fee-wallet SOL
account and the owner of the supplied fee-wallet token account, the payer's
token balance, the payment `amount` and the `token_mint` argument.  On
success returns `(to_treasury, to_fee_wallet)`, the two transferred
amounts.  The handler starts with `Pubkey::from_str(FEE_WALLET).unwrap()`
(line 136): the 48-character constant fails the pubkey parse, so this
`unwrap` panics before either branch is reached, on every call. -/
def accept_payment (fee_wallet_sol_key fee_wallet_token_owner : String)
    (payer_token_balance : Nat) (amount : Nat) (token_mint : String) :
    Res (Nat × Nat) :=
  match pubkey_from_str FEE_WALLET with
  | none => .panic
  | some fee_wallet_pubkey =>
    if ¬ (fee_wallet_sol_key = fee_wallet_pubkey) then .fail .InvalidFeeWallet
    else if ¬ (fee_wallet_token_owner = fee_wallet_pubkey) then .fail .InvalidFeeWallet
    else if token_mint = PUBKEY_DEFAULT then
      if ¬ (amount > 3) then .fail .InvalidAmount
      else
        match checked_sub amount 3 with
        | none => .panic
        | some net_amount => .ok (net_amount, 3)
    else
      match pubkey_from_str CUSTOM_TOKEN_MINT with
      | none => .panic
      | some custom_mint =>
        if token_mint = custom_mint then
          if ¬ (payer_token_balance ≥ amount) then .fail .InsufficientFunds
          else
            match checked_sub amount 3 with
            | none => .panic
            | some net_amount => .ok (net_amount, 3)
        else .fail .InvalidTokenMint

/-- `lock_liquidity`.  `liquidity_balance` is the balance of the liquidity
token account.  On success returns the updated `PresaleState` and the amount
moved into the vault. -/
def lock_liquidity (ps : PresaleState) (liquidity_balance : Nat) (now : Int) :
    Res (PresaleState × Nat) :=
  match ps.liquidity_lock_end_time with
  | some lock_end =>
    if now < lock_end then
      if ¬ (liquidity_balance > 0) then .fail .InvalidAmount
      else .ok ({ ps with liquidity_locked := true }, liquidity_balance)
    else .fail .LiquidityLockError
  | none => .fail .LiquidityLockError

/-- `burn_tokens` (admin-gated).  Returns the burned amount. -/
def burn_tokens (caller : String) (ps : PresaleState) (amount : Nat) : Res Nat :=
  if ¬ (caller = ps.admin) then .fail .Unauthorized
  else .ok amount

/-- `refill_reward_pool` (admin-gated). -/
def refill_reward_pool (caller : String) (ps : PresaleState) (gs : GlobalState)
    (amount : Nat) : Res GlobalState :=
  if ¬ (caller = ps.admin) then .fail .Unauthorized
  else
    match checked_add gs.reward_pool amount with
    | none => .panic
    | some newPool => .ok { gs with reward_pool := newPool }

/-- `update_parameters` (admin-gated). -/
def update_parameters (caller : String) (ps : PresaleState) (gs : GlobalState)
    (new_apy new_fee_percent : Nat) : Res GlobalState :=
  if ¬ (caller = ps.admin) then .fail .Unauthorized
  else .ok { gs with apy := new_apy, transaction_fee_percent := new_fee_percent }

/-- `withdraw_funds`: transfers `amount` of treasury SOL to the `admin`
account supplied in the context.  The handler checks only that the presale
is still active; it never compares the signer against `presale_state.admin`. -/
def withdraw_funds (_caller : String) (ps : PresaleState) (amount : Nat) : Res Nat :=
  if ¬ ps.is_presale_active then .fail .WithdrawalNotAllowedAfterPresale
  else .ok amount

/-- The hardcoded schedule written by `initialize_presale_stages`. -/
def init_presale_stages : List PresaleStage :=
  [ { stage := 1, price := 21000, tokens_sold := 2500000000, total_raised := 525000 },
    { stage := 2, price := 25000, tokens_sold := 2500000000, total_raised := 625000 },
    { stage := 3, price := 29000, tokens_sold := 2500000000, total_raised := 725000 },
    { stage := 4, price := 33000, tokens_sold := 2500000000, total_raised := 825000 },
    { stage := 5, price := 37000, tokens_sold := 2500000000, total_raised := 925000 },
    { stage := 6, price := 41000, tokens_sold := 2500000000, total_raised := 1025000 },
    { stage := 7, price := 45000, tokens_sold := 2500000000, total_raised := 1125000 },
    { stage := 8, price := 49000, tokens_sold := 2500000000, total_raised := 1225000 } ]

/-- `update_presale_stage`: overwrites `stages[stage_index]` after the bound
check.  The handler never compares the signer against `presale_state.admin`. -/
def update_presale_stage (_caller : String) (stages : List PresaleStage)
    (stage_index : Nat) (price tokens_sold total_raised : Nat) :
    Res (List PresaleStage) :=
  if ¬ (stage_index < stages.length) then .fail .InvalidStageIndex
  else .ok (stages.set stage_index
    { stage := stage_index + 1, price := price,
      tokens_sold := tokens_sold, total_raised := total_raised })

/-- `claim_rewards` of the older fragment `brats_contract_v2.rs`: the reward
expression uses plain (unchecked) `u64` arithmetic, which wraps modulo `2^64`
in a release build.  `APY` is the constant `43`.  On success returns the
updated `StakeInfo` and the amount transferred to the user. -/
def claim_rewards_v2 (si : StakeInfo) (now : Int) : Res (StakeInfo × Nat) :=
  if ¬ (now - si.last_claim_time > 0) then .fail .NoRewardsAvailable
  else
    .ok ({ si with last_claim_time := now },
      wrapping_mul (wrapping_mul si.amount 43) (now - si.last_claim_time).toNat /
        (100 * STAKING_DURATION.toNat))

/-!
System state for sequences of stake / unstake operations (claim C1).
`users` collects the depositors whose `StakeInfo` account has been created;
an account is zero-initialized on first stake and zeroed (not deleted) on
full unstake.
-/

/-- The shared state: presale and global accounts plus one `StakeInfo` per
depositor (`users` is the set of depositors with a created account). -/
structure SysState where
  presale : PresaleState
  gs : GlobalState
  users : Finset String
  stakes : String → StakeInfo

/-- One call of the staking interface: `stake_tokens` or `unstake_tokens`
by `user` at wall-clock time `now`. -/
inductive StakeOp where
  | stakeOp (user : String) (now : Int) (amount : Nat)
  | unstakeOp (user : String) (now : Int)

/-- Run one operation as an atomic transaction: on `ok` the returned account
states are committed, on `fail` or `panic` the transaction aborts and the
state is unchanged. -/
def applyOp (s : SysState) (op : StakeOp) : SysState :=
  match op with
  | .stakeOp u now amount =>
    match stake_tokens s.presale s.gs (s.stakes u) now amount with
    | .ok (gs', si') =>
      { s with gs := gs', users := insert u s.users,
               stakes := Function.update s.stakes u si' }
    | .fail _ => s
    | .panic => s
  | .unstakeOp u now =>
    match unstake_tokens s.presale s.gs (s.stakes u) now with
    | .ok (gs', si', _, _) =>
      { s with gs := gs', stakes := Function.update s.stakes u si' }
    | .fail _ => s
    | .panic => s

/-- Run a sequence of operations. -/
def runOps (s : SysState) (ops : List StakeOp) : SysState :=
  ops.foldl applyOp s

/-- Sum of `StakeAccount.amount` over all depositor records. -/
def stakeSum (s : SysState) : Nat :=
  Finset.sum s.users (fun u => (s.stakes u).amount)

/-- The conservation invariant, strengthened with the fact that a depositor
without a created account holds amount 0. -/
def conserved (s : SysState) : Prop :=
  s.gs.total_staked = stakeSum s ∧ ∀ u, u ∉ s.users → (s.stakes u).amount = 0

/-- The state after `initialize_token` and `initialize_global_state`
(plus an arbitrary refill `rp` of the reward pool): no stakes,
`total_staked = 0`. -/
def initSys (ps : PresaleState) (apy fee rp : Nat) : SysState :=
  { presale := ps
    gs := { init_global_state apy fee with reward_pool := rp }
    users := ∅
    stakes := fun _ => { amount := 0, start_time := 0, last_claim_time := 0 } }

theorem checked_add_some {a b c : Nat} (h : checked_add a b = some c) :
    c = a + b ∧ a + b < U64_MOD := by
  unfold checked_add at h
  split at h
  · exact ⟨(Option.some.inj h).symm, by assumption⟩
  · exact absurd h (by simp)

theorem checked_sub_some {a b c : Nat} (h : checked_sub a b = some c) :
    c = a - b ∧ b ≤ a := by
  unfold checked_sub at h
  split at h
  · exact ⟨(Option.some.inj h).symm, by assumption⟩
  · exact absurd h (by simp)

theorem checked_mul_some {a b c : Nat} (h : checked_mul a b = some c) :
    c = a * b ∧ a * b < U64_MOD := by
  unfold checked_mul at h
  split at h
  · exact ⟨(Option.some.inj h).symm, by assumption⟩
  · exact absurd h (by simp)

theorem checked_div_some {a b c : Nat} (h : checked_div a b = some c) :
    c = a / b ∧ b ≠ 0 := by
  unfold checked_div at h
  split at h
  · exact absurd h (by simp)
  · exact ⟨(Option.some.inj h).symm, by assumption⟩

theorem stake_tokens_ok {ps : PresaleState} {gs : GlobalState} {si : StakeInfo}
    {now : Int} {amount : Nat} {gs' : GlobalState} {si' : StakeInfo}
    (h : stake_tokens ps gs si now amount = Res.ok (gs', si')) :
    gs'.total_staked = gs.total_staked + amount ∧ si'.amount = si.amount + amount := by
  unfold stake_tokens at h
  repeat' split at h
  any_goals exact Res.noConfusion h
  rename_i x1 newAmount heqA x2 newTotal heqT
  obtain ⟨q1, _⟩ := checked_add_some heqA
  obtain ⟨q3, _⟩ := checked_add_some heqT
  simp only [Res.ok.injEq, Prod.mk.injEq] at h
  obtain ⟨hg, hsi⟩ := h
  subst hg hsi
  exact ⟨by simp [q3], by simp [q1]⟩

theorem unstake_settle_ok {gs : GlobalState} {si : StakeInfo} {now : Int}
    {gs' : GlobalState} {si' : StakeInfo} {pay burn : Nat}
    (h : unstake_settle gs si now = Res.ok (gs', si', pay, burn)) :
    0 < si.amount ∧ si.amount ≤ gs.total_staked ∧
      gs'.total_staked = gs.total_staked - si.amount ∧ si'.amount = 0 := by
  unfold unstake_settle at h
  split at h
  · exact Res.noConfusion h
  split at h
  · rename_i hpos _
    split at h
    · exact Res.noConfusion h
    rename_i newTotal heqT
    obtain ⟨q1, q2⟩ := checked_sub_some heqT
    simp only [Res.ok.injEq, Prod.mk.injEq] at h
    obtain ⟨hg, hsi, _, _⟩ := h
    subst hg hsi
    exact ⟨by omega, q2, by simp [q1], rfl⟩
  · rename_i hpos _
    split at h
    · exact Res.noConfusion h
    rename_i m heqM
    split at h
    · exact Res.noConfusion h
    rename_i penalty heqP
    split at h
    · exact Res.noConfusion h
    rename_i pay0 heqPay
    split at h
    · exact Res.noConfusion h
    rename_i newTotal heqT
    obtain ⟨q1, q2⟩ := checked_sub_some heqT
    simp only [Res.ok.injEq, Prod.mk.injEq] at h
    obtain ⟨hg, hsi, _, _⟩ := h
    subst hg hsi
    exact ⟨by omega, q2, by simp [q1], rfl⟩

theorem unstake_tokens_ok {ps : PresaleState} {gs : GlobalState} {si : StakeInfo}
    {now : Int} {gs' : GlobalState} {si' : StakeInfo} {pay burn : Nat}
    (h : unstake_tokens ps gs si now = Res.ok (gs', si', pay, burn)) :
    0 < si.amount ∧ si.amount ≤ gs.total_staked ∧
      gs'.total_staked = gs.total_staked - si.amount ∧ si'.amount = 0 := by
  unfold unstake_tokens at h
  split at h
  · rename_i launch_time heqL
    split at h
    · exact Res.noConfusion h
    · exact unstake_settle_ok h
  · exact unstake_settle_ok h

theorem sum_update_amount_mem {users : Finset String} {f : String → StakeInfo}
    {u : String} (hu : u ∈ users) (v : StakeInfo) :
    Finset.sum users (fun x => (Function.update f u v x).amount) =
      v.amount + Finset.sum (users.erase u) (fun x => (f x).amount) := by
  have hfun : (fun x => (Function.update f u v x).amount) =
      Function.update (fun x => (f x).amount) u v.amount := by
    funext x
    by_cases hx : x = u
    · subst hx; simp
    · simp [Function.update_apply, hx]
  rw [hfun, Finset.sum_update_of_mem hu, Finset.sdiff_singleton_eq_erase]

theorem sum_update_amount_not_mem {users : Finset String} {f : String → StakeInfo}
    {u : String} (hu : u ∉ users) (v : StakeInfo) :
    Finset.sum users (fun x => (Function.update f u v x).amount) =
      Finset.sum users (fun x => (f x).amount) := by
  refine Finset.sum_congr rfl (fun x hx => ?_)
  have hxu : x ≠ u := fun hxe => hu (hxe ▸ hx)
  simp [Function.update_apply, hxu]

theorem conserved_applyOp {s : SysState} (hs : conserved s) (op : StakeOp) :
    conserved (applyOp s op) := by
  obtain ⟨h1, h2⟩ := hs
  cases op with
  | stakeOp u now amount =>
    cases hres : stake_tokens s.presale s.gs (s.stakes u) now amount with
    | ok val =>
      obtain ⟨gs', si'⟩ := val
      obtain ⟨ha, hb⟩ := stake_tokens_ok hres
      simp only [applyOp, hres]
      by_cases hu : u ∈ s.users
      · constructor
        · have hins : insert u s.users = s.users := Finset.insert_eq_self.mpr hu
          have hold : (s.stakes u).amount +
              Finset.sum (s.users.erase u) (fun x => (s.stakes x).amount) =
              Finset.sum s.users (fun x => (s.stakes x).amount) :=
            Finset.add_sum_erase s.users (fun x => (s.stakes x).amount) hu
          show gs'.total_staked = Finset.sum (insert u s.users)
            (fun x => (Function.update s.stakes u si' x).amount)
          rw [hins, sum_update_amount_mem hu]
          simp only [stakeSum] at h1
          omega
        · intro x hx
          simp only [Finset.mem_insert, not_or] at hx
          show (Function.update s.stakes u si' x).amount = 0
          rw [Function.update_apply, if_neg hx.1]
          exact h2 x hx.2
      · constructor
        · have hz : (s.stakes u).amount = 0 := h2 u hu
          show gs'.total_staked = Finset.sum (insert u s.users)
            (fun x => (Function.update s.stakes u si' x).amount)
          rw [Finset.sum_insert hu, sum_update_amount_not_mem hu]
          simp only [Function.update_same]
          simp only [stakeSum] at h1
          omega
        · intro x hx
          simp only [Finset.mem_insert, not_or] at hx
          show (Function.update s.stakes u si' x).amount = 0
          rw [Function.update_apply, if_neg hx.1]
          exact h2 x hx.2
    | fail e => simp only [applyOp, hres]; exact ⟨h1, h2⟩
    | panic => simp only [applyOp, hres]; exact ⟨h1, h2⟩
  | unstakeOp u now =>
    cases hres : unstake_tokens s.presale s.gs (s.stakes u) now with
    | ok val =>
      obtain ⟨gs', si', pay, burn⟩ := val
      obtain ⟨hpos, hle, ha, hb⟩ := unstake_tokens_ok hres
      simp only [applyOp, hres]
      have hu : u ∈ s.users := by
        by_contra hu
        exact absurd (h2 u hu) (by omega)
      constructor
      · have hold : (s.stakes u).amount +
            Finset.sum (s.users.erase u) (fun x => (s.stakes x).amount) =
            Finset.sum s.users (fun x => (s.stakes x).amount) :=
          Finset.add_sum_erase s.users (fun x => (s.stakes x).amount) hu
        show gs'.total_staked = Finset.sum s.users
          (fun x => (Function.update s.stakes u si' x).amount)
        rw [sum_update_amount_mem hu]
        simp only [stakeSum] at h1
        omega
      · intro x hx
        have hxu : x ≠ u := fun hxe => (hxe ▸ hx) hu
        show (Function.update s.stakes u si' x).amount = 0
        rw [Function.update_apply, if_neg hxu]
        exact h2 x hx
    | fail e => simp only [applyOp, hres]; exact ⟨h1, h2⟩
    | panic => simp only [applyOp, hres]; exact ⟨h1, h2⟩

theorem conserved_runOps {s : SysState} (hs : conserved s) (ops : List StakeOp) :
    conserved (runOps s ops) := by
  induction ops generalizing s with
  | nil => exact hs
  | cons op ops ih => exact ih (conserved_applyOp hs op)

/-!
Helper characterizations used by the claim theorems.
-/

theorem unstake_settle_spec (gs : GlobalState) (si : StakeInfo) (now : Int)
    (hamt : 0 < si.amount) (hle : si.amount ≤ gs.total_staked)
    (hmul : si.amount * EARLY_UNSTAKE_PENALTY_PERCENT < U64_MOD) :
    unstake_settle gs si now =
      if now - si.start_time ≥ STAKING_DURATION then
        Res.ok ({ gs with total_staked := gs.total_staked - si.amount },
          { si with amount := 0 }, si.amount, 0)
      else
        Res.ok ({ gs with total_staked := gs.total_staked - si.amount },
          { si with amount := 0 },
          si.amount - si.amount * 20 / 100, si.amount * 20 / 100) := by
  have hsub : checked_sub gs.total_staked si.amount =
      some (gs.total_staked - si.amount) := by
    unfold checked_sub; exact if_pos hle
  have hm : checked_mul si.amount EARLY_UNSTAKE_PENALTY_PERCENT =
      some (si.amount * EARLY_UNSTAKE_PENALTY_PERCENT) := by
    unfold checked_mul; exact if_pos hmul
  have hd : checked_div (si.amount * EARLY_UNSTAKE_PENALTY_PERCENT) 100 =
      some (si.amount * EARLY_UNSTAKE_PENALTY_PERCENT / 100) := by
    unfold checked_div; rw [if_neg (by decide)]
  have hps : checked_sub si.amount (si.amount * EARLY_UNSTAKE_PENALTY_PERCENT / 100) =
      some (si.amount - si.amount * EARLY_UNSTAKE_PENALTY_PERCENT / 100) := by
    unfold checked_sub EARLY_UNSTAKE_PENALTY_PERCENT
    exact if_pos (by omega)
  unfold unstake_settle
  rw [if_neg (fun hn => hn hamt)]
  split
  · simp only [hsub]
  · simp only [EARLY_UNSTAKE_PENALTY_PERCENT] at hm hd hps ⊢
    simp only [hm, hd, hps, hsub]

theorem computed_reward_eq {gs : GlobalState} {si : StakeInfo} {now : Int}
    (hdt : 0 < now - si.last_claim_time)
    (hov : si.amount * gs.apy * (now - si.last_claim_time).toNat < U64_MOD) :
    computed_reward gs si now =
      some (si.amount * gs.apy * (now - si.last_claim_time).toNat /
        (100 * STAKING_DURATION.toNat)) := by
  have hdt1 : 1 ≤ (now - si.last_claim_time).toNat := by omega
  have h1 : si.amount * gs.apy < U64_MOD := by
    calc si.amount * gs.apy = si.amount * gs.apy * 1 := (Nat.mul_one _).symm
    _ ≤ si.amount * gs.apy * (now - si.last_claim_time).toNat :=
        Nat.mul_le_mul le_rfl hdt1
    _ < U64_MOD := hov
  have e1 : checked_mul si.amount gs.apy = some (si.amount * gs.apy) := by
    unfold checked_mul; exact if_pos h1
  have e2 : checked_mul (si.amount * gs.apy) (now - si.last_claim_time).toNat =
      some (si.amount * gs.apy * (now - si.last_claim_time).toNat) := by
    unfold checked_mul; exact if_pos hov
  have e3 : checked_div (si.amount * gs.apy * (now - si.last_claim_time).toNat)
      (100 * STAKING_DURATION.toNat) =
      some (si.amount * gs.apy * (now - si.last_claim_time).toNat /
        (100 * STAKING_DURATION.toNat)) := by
    unfold checked_div; rw [if_neg (by decide)]
  unfold computed_reward
  simp only [e1, e2, e3]

/-!
The claims.
-/

/-- C1: starting from an initialized `GlobalState` (`total_staked = 0`, no
stakes), after every element of a sequence of `stake_tokens` /
`unstake_tokens` calls (aborted calls leave the state unchanged),
`GlobalState.total_staked` equals the sum of `amount` over all
`StakeInfo` records. -/
theorem C1_total_staked_conservation (ps : PresaleState) (apy fee rp : Nat)
    (ops : List StakeOp) :
    (runOps (initSys ps apy fee rp) ops).gs.total_staked =
      stakeSum (runOps (initSys ps apy fee rp) ops) :=
  (conserved_runOps (by
    unfold conserved
    refine ⟨?_, fun u _ => rfl⟩
    show (0 : Nat) = stakeSum (initSys ps apy fee rp)
    simp [stakeSum, initSys]) ops).1

/-- C2: an `unstake_tokens` call that passes the 7-day launch gate with a
positive stake and no arithmetic abort pays back the full `amount` when
`now - start_time ≥ 180` days, and otherwise pays `amount - amount*20/100`
while burning `amount*20/100`; in both cases `total_staked` drops by the
full `amount` and the stake amount is set to 0. -/
theorem C2_unstake_settlement (ps : PresaleState) (gs : GlobalState)
    (si : StakeInfo) (now : Int)
    (hgate : ∀ lt, ps.launch_time = some lt → ¬ now < lt + EARLY_UNSTAKE_PERIOD)
    (hamt : 0 < si.amount) (hle : si.amount ≤ gs.total_staked)
    (hmul : si.amount * EARLY_UNSTAKE_PENALTY_PERCENT < U64_MOD) :
    unstake_tokens ps gs si now =
      if now - si.start_time ≥ STAKING_DURATION then
        Res.ok ({ gs with total_staked := gs.total_staked - si.amount },
          { si with amount := 0 }, si.amount, 0)
      else
        Res.ok ({ gs with total_staked := gs.total_staked - si.amount },
          { si with amount := 0 },
          si.amount - si.amount * 20 / 100, si.amount * 20 / 100) := by
  unfold unstake_tokens
  cases hL : ps.launch_time with
  | some lt =>
    change (if now < lt + EARLY_UNSTAKE_PERIOD then
        Res.fail ErrorCode.UnstakingNotAllowedBefore7Days
      else unstake_settle gs si now) = _
    rw [if_neg (hgate lt hL)]
    exact unstake_settle_spec gs si now hamt hle hmul
  | none => exact unstake_settle_spec gs si now hamt hle hmul

/-- C2 witness: a 1,000,000-unit stake staked at time 0, unstaked at day 10
(the launch also at time 0, so the 7-day gate has passed): the depositor
receives 800,000, the burned penalty is 200,000, `total_staked` drops by the
full 1,000,000 and the stake is zeroed. -/
theorem C2_unstake_settlement_witness :
    unstake_tokens
      { is_presale_active := false, presale_end_time := some 0,
        launch_time := some 0, admin := FEE_WALLET,
        liquidity_locked := false, liquidity_lock_end_time := none }
      { total_staked := 1000000, reward_pool := 50, apy := 43,
        transaction_fee_percent := 3 }
      { amount := 1000000, start_time := 0, last_claim_time := 0 }
      864000 =
      Res.ok ({ total_staked := 0, reward_pool := 50, apy := 43,
                transaction_fee_percent := 3 },
        { amount := 0, start_time := 0, last_claim_time := 0 },
        800000, 200000) := by
  have h := C2_unstake_settlement
    { is_presale_active := false, presale_end_time := some 0,
      launch_time := some 0, admin := FEE_WALLET,
      liquidity_locked := false, liquidity_lock_end_time := none }
    { total_staked := 1000000, reward_pool := 50, apy := 43,
      transaction_fee_percent := 3 }
    { amount := 1000000, start_time := 0, last_claim_time := 0 }
    864000
    (by intro lt hlt; injection hlt with h0; subst h0; decide)
    (by decide) (by decide) (by decide)
  rw [h]
  decide

/-- C3: with `dt = now - last_claim_time > 0` and the products inside the
`u64` range, `calculate_rewards` returns
`amount * apy * dt / (100 * STAKING_DURATION)` (integer division), and any
successful `claim_rewards` pays exactly that value. -/
theorem C3_reward_formula (gs : GlobalState) (si : StakeInfo) (pool : Nat)
    (now : Int)
    (hdt : 0 < now - si.last_claim_time)
    (hov : si.amount * gs.apy * (now - si.last_claim_time).toNat < U64_MOD) :
    calculate_rewards gs si now =
      Res.ok (si.amount * gs.apy * (now - si.last_claim_time).toNat /
        (100 * STAKING_DURATION.toNat)) ∧
    ∀ gs' si' paid, claim_rewards gs si pool now = Res.ok (gs', si', paid) →
      paid = si.amount * gs.apy * (now - si.last_claim_time).toNat /
        (100 * STAKING_DURATION.toNat) := by
  have hr := computed_reward_eq hdt hov
  constructor
  · unfold calculate_rewards
    rw [if_neg (by omega)]
    simp only [hr]
  · intro gs' si' paid h
    unfold claim_rewards at h
    rw [if_neg (by omega)] at h
    simp only [hr] at h
    split at h
    · exact Res.noConfusion h
    split at h
    · exact Res.noConfusion h
    simp only [Res.ok.injEq, Prod.mk.injEq] at h
    exact h.2.2.symm

/-- C3 witness: amount 1,000,000, apy 43, dt = 90 days: the computed reward
is 215,000. -/
theorem C3_reward_formula_witness :
    calculate_rewards
      { total_staked := 1000000, reward_pool := 215000, apy := 43,
        transaction_fee_percent := 3 }
      { amount := 1000000, start_time := 0, last_claim_time := 0 }
      7776000 = Res.ok 215000 := by
  have h := (C3_reward_formula
    { total_staked := 1000000, reward_pool := 215000, apy := 43,
      transaction_fee_percent := 3 }
    { amount := 1000000, start_time := 0, last_claim_time := 0 }
    215000 7776000 (by decide) (by decide)).1
  rw [h]
  decide

/-- C8: whenever `launch_time` is set and `now < launch_time + 7 days`,
`unstake_tokens` fails with `UnstakingNotAllowedBefore7Days` (the spec's
`EarlyUnstakeLocked`), whatever the stake's age or size; the failure aborts
the transaction, so no state changes. -/
theorem C8_early_unstake_gate (ps : PresaleState) (gs : GlobalState)
    (si : StakeInfo) (now lt : Int)
    (hlt : ps.launch_time = some lt)
    (hnow : now < lt + EARLY_UNSTAKE_PERIOD) :
    unstake_tokens ps gs si now = Res.fail ErrorCode.UnstakingNotAllowedBefore7Days := by
  unfold unstake_tokens
  simp only [hlt]
  rw [if_pos hnow]

/-- C8 witness: launch at time 1000, unstake attempt at time 1100 (well
inside the 7-day window) fails `UnstakingNotAllowedBefore7Days` even for a
stake old enough for full-term settlement. -/
theorem C8_early_unstake_gate_witness :
    unstake_tokens
      { is_presale_active := false, presale_end_time := some 1000,
        launch_time := some 1000, admin := FEE_WALLET,
        liquidity_locked := false, liquidity_lock_end_time := none }
      { total_staked := 500, reward_pool := 10, apy := 43,
        transaction_fee_percent := 3 }
      { amount := 500, start_time := -20000000, last_claim_time := 0 }
      1100 = Res.fail ErrorCode.UnstakingNotAllowedBefore7Days :=
  C8_early_unstake_gate _ _ _ 1100 1000 rfl (by decide)

/-- C4 (code bug): `burn_tokens`, `refill_reward_pool` and
`update_parameters` do fail `Unauthorized` for a non-admin caller, but
`update_presale_stage` and `withdraw_funds` never compare the signer with
`presale_state.admin`: called by "mallory" (which is not the stored admin)
they succeed — the stage table is overwritten and the treasury SOL is
transferred to the non-admin signer — instead of failing `Unauthorized`
with no mutation. -/
theorem C4_admin_gate_missing :
    ("mallory" = FEE_WALLET) = False ∧
    update_presale_stage "mallory" init_presale_stages 0 99 88 77 =
      Res.ok ({ stage := 1, price := 99, tokens_sold := 88, total_raised := 77 } ::
        init_presale_stages.tail) ∧
    withdraw_funds "mallory"
      { is_presale_active := true, presale_end_time := none, launch_time := none,
        admin := FEE_WALLET, liquidity_locked := false,
        liquidity_lock_end_time := none } 500 = Res.ok 500 ∧
    burn_tokens "mallory"
      { is_presale_active := true, presale_end_time := none, launch_time := none,
        admin := FEE_WALLET, liquidity_locked := false,
        liquidity_lock_end_time := none } 10 =
      Res.fail ErrorCode.Unauthorized ∧
    refill_reward_pool "mallory"
      { is_presale_active := true, presale_end_time := none, launch_time := none,
        admin := FEE_WALLET, liquidity_locked := false,
        liquidity_lock_end_time := none } (init_global_state 43 3) 5 =
      Res.fail ErrorCode.Unauthorized ∧
    update_parameters "mallory"
      { is_presale_active := true, presale_end_time := none, launch_time := none,
        admin := FEE_WALLET, liquidity_locked := false,
        liquidity_lock_end_time := none } (init_global_state 43 3) 1 2 =
      Res.fail ErrorCode.Unauthorized := by
  decide

/-- C5 (code bug): the `claim_rewards` of `brats_contract_v2.rs` computes
the reward with plain (unchecked, wrapping-in-release) `u64` multiplication.
At `amount = 2^60`, `staking_time = 1` the call completes and pays the
wrapped value 8154665991 — not the mathematically correct 31877330695, and
not an abort.  The v3 checked expression at the same input returns `none`
(the operation aborts), as the claim requires. -/
theorem C5_v2_unchecked_arithmetic :
    claim_rewards_v2
      { amount := 2 ^ 60, start_time := 0, last_claim_time := 0 } 1 =
      Res.ok ({ amount := 2 ^ 60, start_time := 0, last_claim_time := 1 },
        8154665991) ∧
    2 ^ 60 * 43 * 1 / (100 * STAKING_DURATION.toNat) = 31877330695 ∧
    computed_reward
      { total_staked := 0, reward_pool := 0, apy := 43, transaction_fee_percent := 3 }
      { amount := 2 ^ 60, start_time := 0, last_claim_time := 0 } 1 = none := by
  refine ⟨?_, by decide, by decide⟩
  unfold claim_rewards_v2
  rw [if_neg (by decide)]
  decide

/-- C6 (code bug): `accept_payment` opens with
`Pubkey::from_str(FEE_WALLET).unwrap()`, and the 48-character constant
fails the 44-character pubkey length guard, so the `unwrap` panics before
either currency branch on every input — in particular
`accept_payment 1000 native` panics instead of transferring 997 and 3, and
`accept_payment 3 native` panics instead of failing `InvalidAmount`. -/
theorem C6_accept_payment_always_panics :
    (∀ fee_wallet_sol_key fee_wallet_token_owner payer_token_balance amount
      token_mint,
      accept_payment fee_wallet_sol_key fee_wallet_token_owner
        payer_token_balance amount token_mint = Res.panic) ∧
    accept_payment FEE_WALLET FEE_WALLET 0 1000 PUBKEY_DEFAULT = Res.panic ∧
    accept_payment FEE_WALLET FEE_WALLET 0 3 PUBKEY_DEFAULT = Res.panic ∧
    FEE_WALLET.length = 48 ∧ MAX_BASE58_LEN = 44 := by
  refine ⟨fun f t b a m => ?_, by decide, by decide, by decide, by decide⟩
  unfold accept_payment
  simp only [show pubkey_from_str FEE_WALLET = none from by decide]

/-- C7: any successful `claim_rewards` pays at most the reward-pool token
balance held before the call, decreases `reward_pool` by exactly the paid
amount, sets `last_claim_time = now` and leaves the stake amount unchanged;
and whenever the computed reward exceeds that balance the call fails with
`InsufficientRewards` (paying nothing, since the failure aborts the
transaction). -/
theorem C7_reward_pool_bound (gs : GlobalState) (si : StakeInfo) (pool : Nat)
    (now : Int) :
    (∀ gs' si' paid, claim_rewards gs si pool now = Res.ok (gs', si', paid) →
      paid ≤ pool ∧ gs'.reward_pool + paid = gs.reward_pool ∧
        si'.last_claim_time = now ∧ si'.amount = si.amount) ∧
    (∀ r, 0 < now - si.last_claim_time → computed_reward gs si now = some r →
      pool < r →
      claim_rewards gs si pool now = Res.fail ErrorCode.InsufficientRewards) := by
  constructor
  · intro gs' si' paid h
    unfold claim_rewards at h
    split at h
    · exact Res.noConfusion h
    split at h
    · exact Res.noConfusion h
    rename_i x r heqR
    split at h
    · exact Res.noConfusion h
    rename_i hpool
    split at h
    · exact Res.noConfusion h
    rename_i y newPool heqP
    obtain ⟨q1, q2⟩ := checked_sub_some heqP
    simp only [Res.ok.injEq, Prod.mk.injEq] at h
    obtain ⟨hg, hsi, hpaid⟩ := h
    subst hg hsi hpaid
    refine ⟨by omega, by simp [q1]; omega, rfl, rfl⟩
  · intro r hdt hcr hlt
    unfold claim_rewards
    rw [if_neg (by omega)]
    simp only [hcr]
    rw [if_pos (by omega)]

/-- C7 witness: with reward pool counter 215,000, pool balance 300,000,
amount 1,000,000, apy 43 and dt = 90 days the computed reward is 215,000:
the success case pays it and empties `reward_pool`; with pool balance 100
(less than the 215,000 reward) the call fails `InsufficientRewards`. -/
theorem C7_reward_pool_bound_witness :
    ((215000 : Nat) ≤ 300000 ∧ (0 : Nat) + 215000 = 215000 ∧
      (7776000 : Int) = 7776000 ∧ (1000000 : Nat) = 1000000) ∧
    claim_rewards
      { total_staked := 1000000, reward_pool := 215000, apy := 43,
        transaction_fee_percent := 3 }
      { amount := 1000000, start_time := 0, last_claim_time := 0 }
      100 7776000 = Res.fail ErrorCode.InsufficientRewards := by
  constructor
  · exact (C7_reward_pool_bound
      { total_staked := 1000000, reward_pool := 215000, apy := 43,
        transaction_fee_percent := 3 }
      { amount := 1000000, start_time := 0, last_claim_time := 0 }
      300000 7776000).1
      { total_staked := 1000000, reward_pool := 0, apy := 43,
        transaction_fee_percent := 3 }
      { amount := 1000000, start_time := 0, last_claim_time := 7776000 }
      215000 (by decide)
  · exact (C7_reward_pool_bound
      { total_staked := 1000000, reward_pool := 215000, apy := 43,
        transaction_fee_percent := 3 }
      { amount := 1000000, start_time := 0, last_claim_time := 0 }
      100 7776000).2 215000 (by decide) (by decide) (by decide)

/-- C9: `lock_liquidity` succeeds exactly when `liquidity_lock_end_time` is
set, `now` is strictly before it, and the liquidity holding is positive (a
zero holding fails `InvalidAmount`); it then moves the whole holding into
the vault and sets `liquidity_locked := true`.  With the end time unset, or
`now` at or past it, it fails `LiquidityLockError` — the lock can never
succeed once its own deadline has passed. -/
theorem C9_lock_liquidity_gate (ps : PresaleState) (bal : Nat) (now : Int) :
    (∀ le_t, ps.liquidity_lock_end_time = some le_t → now < le_t → 0 < bal →
      lock_liquidity ps bal now =
        Res.ok ({ ps with liquidity_locked := true }, bal)) ∧
    (∀ le_t, ps.liquidity_lock_end_time = some le_t → now < le_t → bal = 0 →
      lock_liquidity ps bal now = Res.fail ErrorCode.InvalidAmount) ∧
    (ps.liquidity_lock_end_time = none →
      lock_liquidity ps bal now = Res.fail ErrorCode.LiquidityLockError) ∧
    (∀ le_t, ps.liquidity_lock_end_time = some le_t → le_t ≤ now →
      lock_liquidity ps bal now = Res.fail ErrorCode.LiquidityLockError) := by
  refine ⟨?_, ?_, ?_, ?_⟩
  · intro le_t he hlt hbal
    unfold lock_liquidity
    simp only [he]
    rw [if_pos hlt, if_neg (fun hn => hn hbal)]
  · intro le_t he hlt hbal
    unfold lock_liquidity
    simp only [he]
    rw [if_pos hlt, if_pos (by omega)]
  · intro he
    unfold lock_liquidity
    simp only [he]
  · intro le_t he hge
    unfold lock_liquidity
    simp only [he]
    rw [if_neg (by omega)]

/-- C9 witness: end time 100, now 50, holding 7: the lock succeeds, moves
the 7 units and sets `liquidity_locked := true`. -/
theorem C9_lock_liquidity_gate_witness :
    lock_liquidity
      { is_presale_active := false, presale_end_time := some 0,
        launch_time := some 0, admin := FEE_WALLET,
        liquidity_locked := false, liquidity_lock_end_time := some 100 }
      7 50 =
      Res.ok ({ is_presale_active := false, presale_end_time := some 0,
                launch_time := some 0, admin := FEE_WALLET,
                liquidity_locked := true,
                liquidity_lock_end_time := some 100 }, 7) :=
  (C9_lock_liquidity_gate
    { is_presale_active := false, presale_end_time := some 0,
      launch_time := some 0, admin := FEE_WALLET,
      liquidity_locked := false, liquidity_lock_end_time := some 100 }
    7 50).1 100 rfl (by decide) (by decide)

/-- C10 (code bug): the string hard-coded at line 89 is byte-for-byte the
`FEE_WALLET` constant, but it is not a valid public key: it is 48
characters (the pubkey maximum is 44, and its base58 decode would be 35
bytes, not 32), so `Pubkey::from_str(...).unwrap()` panics and
`initialize_token` aborts on every call — `presale_state.admin` is never
written at all, for any caller. -/
theorem C10_init_token_always_panics :
    (∀ caller, init_token caller = Res.panic) ∧
    "57EMXJXJkGYNCGjr9ngZPKnJr9jdJPZ1SRr9jdJPZ1SRr9tr" = FEE_WALLET ∧
    pubkey_from_str FEE_WALLET = none ∧
    FEE_WALLET.length = 48 ∧ MAX_BASE58_LEN = 44 := by
  refine ⟨fun c => ?_, rfl, by decide, by decide, by decide⟩
  unfold init_token
  simp only [show pubkey_from_str
    "57EMXJXJkGYNCGjr9ngZPKnJr9jdJPZ1SRr9jdJPZ1SRr9tr" = none from by decide]
